import Mathlib

/-!
Shallow embedding of the core of the `transport-planner` repository
(backend route-metrics calculator, gas-price table, response cache and
cache-key derivation), together with theorems settling the frozen claims
about it.

Numbers: the TypeScript code computes with JS numbers; the embedding uses
exact rationals (`ℚ`), making the arithmetic of the spec-level claims
exact.  `Math.round` is modelled as `⌊x + 1/2⌋` (its behaviour on every
value reachable here).  A JS number that can be `NaN` — the metric fields
produced when the mode lookup hits an inherited `Object.prototype` member
and the arithmetic runs on `undefined` — is modelled as `Option ℚ` with
`none` for `NaN`.  Rendering of numbers inside template strings is
abstracted by a deterministic printer (`jsNumLit`, `jsToFixed`): no claim
inspects the text of those strings, only their determinism matters.

Property lookup: `transportModes` is a plain object literal, so the
bracket read `transportModes[mode]` sees the `Object.prototype` chain;
`transportModesRead` models the full read (own record, truthy inherited
member, or `undefined`), and `transportModes` is the own-property table.

Strings: JS strings are modelled by Lean `String`; `toLowerCase` is
modelled on the basic-latin alphabet (`Char.toLower`) and `trim` drops
`Char.isWhitespace` characters from both ends, which agrees with JS on
every input appearing in the claims.
-/

namespace TransportPlanner

/-! ## JS number primitives -/

/-- JS `Math.round`: round half toward positive infinity. -/
def jsRound (q : ℚ) : ℤ := ⌊q + 1/2⌋

/-- `Math.round(x * 1000) / 1000` — round to 3 decimal places, as in
`calculateCarbonEmissions`. -/
def roundTo3 (q : ℚ) : ℚ := (jsRound (q * 1000) : ℚ) / 1000

/-- `Math.round(x * 100) / 100` — round to 2 decimal places, as in
`calculateCost` and `getCostRange`. -/
def roundTo2 (q : ℚ) : ℚ := (jsRound (q * 100) : ℚ) / 100

/-- Deterministic stand-in for JS number-to-string conversion used inside
template literals.  The exact text is immaterial to every claim. -/
def jsNumLit (q : ℚ) : String :=
  if q.den = 1 then toString q.num else toString q.num ++ "/" ++ toString q.den

/-- Deterministic stand-in for JS `Number.prototype.toFixed`. -/
def jsToFixed (digits : ℕ) (q : ℚ) : String :=
  let p : ℤ := (10 : ℤ) ^ digits
  let n : ℤ := jsRound (q * (p : ℚ))
  let intPart : ℤ := n / p
  let fracPart : ℕ := (n % p).natAbs
  let s := toString fracPart
  toString intPart ++ "." ++ String.mk (List.replicate (digits - s.length) '0') ++ s

/-- `toFixed` applied to a possibly-`NaN` JS number:
`(NaN).toFixed(d)` is the string `"NaN"`.  A JS number that can be `NaN`
is modelled as `Option ℚ` with `none` for `NaN`. -/
def jsToFixedNum (digits : ℕ) : Option ℚ → String
  | some q => jsToFixed digits q
  | none => "NaN"

/-! ## JS string primitives -/

/-- JS `String.prototype.toLowerCase`, modelled on basic latin
(`Char.toLower` lowers exactly `A`–`Z`). -/
def jsToLower (s : String) : String := String.mk (s.data.map Char.toLower)

/-- Character-list trim: drop whitespace from both ends. -/
def trimChars (l : List Char) : List Char :=
  ((l.dropWhile Char.isWhitespace).reverse.dropWhile Char.isWhitespace).reverse

/-- JS `String.prototype.trim`. -/
def jsTrim (s : String) : String := String.mk (trimChars s.data)

/-! ## JS values (for cache payloads and `JSON.stringify`) -/

/-- Runtime JS values, as far as the cache layer and `JSON.stringify`
observe them.  Object fields are kept in insertion order, which is the
order `JSON.stringify` serialises them in. -/
inductive JsVal where
  | jnull : JsVal
  | jbool (b : Bool) : JsVal
  | jnum (q : ℚ) : JsVal
  | jstr (s : String) : JsVal
  | jarr (elems : List JsVal) : JsVal
  | jobj (fields : List (String × JsVal)) : JsVal

/-- JS truthiness of a value (`if (data)` in the cache services; `NaN` is
not representable here, and `undefined` is modelled by `Option.none` at
the use sites). -/
def truthy : JsVal → Bool
  | .jnull => false
  | .jbool b => b
  | .jnum q => decide (q ≠ 0)
  | .jstr s => decide (s ≠ "")
  | .jarr _ => true
  | .jobj _ => true

mutual

/-- `JSON.stringify`, over the `JsVal` fragment: fields are emitted in
insertion order (this is what the JS engine does; string escaping is not
modelled — no input in the development needs it). -/
def stringifyVal : JsVal → String
  | .jnull => "null"
  | .jbool true => "true"
  | .jbool false => "false"
  | .jnum q => jsNumLit q
  | .jstr s => "\"" ++ s ++ "\""
  | .jarr elems => "[" ++ stringifyElems elems ++ "]"
  | .jobj fields => "\x7b" ++ stringifyFields fields ++ "\x7d"

/-- Comma-separated rendering of array elements. -/
def stringifyElems : List JsVal → String
  | [] => ""
  | [v] => stringifyVal v
  | v :: rest => stringifyVal v ++ "," ++ stringifyElems rest

/-- Comma-separated rendering of object fields, in list (= insertion)
order. -/
def stringifyFields : List (String × JsVal) → String
  | [] => ""
  | [(k, v)] => "\"" ++ k ++ "\":" ++ stringifyVal v
  | (k, v) :: rest => "\"" ++ k ++ "\":" ++ stringifyVal v ++ "," ++ stringifyFields rest

end

/-! ## `src/backend/src/services/gasPrices.ts` — gas price service -/

/-- One entry of the regional gas price database. -/
structure RegionalGasPrices where
  country : String
  region : Option String := none
  pricePerGallon : ℚ
  currency : String

/-- The optional `{country?, region?}` location context.  The fields are
`Option` because the TS type marks them optional. -/
structure LocationContext where
  country : Option String := none
  region : Option String := none

/-- The static regional gas price database (USD per gallon). -/
def gasPriceDatabase : List RegionalGasPrices := [
  -- United States - by state/region
  { country := "US", region := some "California", pricePerGallon := 4.80, currency := "USD" },
  { country := "US", region := some "New York", pricePerGallon := 3.65, currency := "USD" },
  { country := "US", region := some "Texas", pricePerGallon := 3.10, currency := "USD" },
  { country := "US", region := some "Florida", pricePerGallon := 3.35, currency := "USD" },
  { country := "US", region := some "Illinois", pricePerGallon := 3.75, currency := "USD" },
  { country := "US", region := some "Pennsylvania", pricePerGallon := 3.60, currency := "USD" },
  { country := "US", region := some "Ohio", pricePerGallon := 3.40, currency := "USD" },
  { country := "US", region := some "Georgia", pricePerGallon := 3.25, currency := "USD" },
  { country := "US", region := some "North Carolina", pricePerGallon := 3.30, currency := "USD" },
  { country := "US", region := some "Michigan", pricePerGallon := 3.55, currency := "USD" },
  { country := "US", region := some "New Jersey", pricePerGallon := 3.45, currency := "USD" },
  { country := "US", region := some "Virginia", pricePerGallon := 3.35, currency := "USD" },
  { country := "US", region := some "Washington", pricePerGallon := 4.50, currency := "USD" },
  { country := "US", region := some "Arizona", pricePerGallon := 3.60, currency := "USD" },
  { country := "US", region := some "Massachusetts", pricePerGallon := 3.55, currency := "USD" },
  { country := "US", region := some "Tennessee", pricePerGallon := 3.20, currency := "USD" },
  { country := "US", region := some "Indiana", pricePerGallon := 3.45, currency := "USD" },
  { country := "US", region := some "Missouri", pricePerGallon := 3.15, currency := "USD" },
  { country := "US", region := some "Maryland", pricePerGallon := 3.50, currency := "USD" },
  { country := "US", region := some "Wisconsin", pricePerGallon := 3.35, currency := "USD" },
  { country := "US", region := some "Colorado", pricePerGallon := 3.55, currency := "USD" },
  { country := "US", region := some "Minnesota", pricePerGallon := 3.40, currency := "USD" },
  { country := "US", pricePerGallon := 3.50, currency := "USD" }, -- US National Average
  -- Canada
  { country := "CA", region := some "Ontario", pricePerGallon := 4.20, currency := "USD" },
  { country := "CA", region := some "Quebec", pricePerGallon := 4.35, currency := "USD" },
  { country := "CA", region := some "British Columbia", pricePerGallon := 4.65, currency := "USD" },
  { country := "CA", region := some "Alberta", pricePerGallon := 3.85, currency := "USD" },
  { country := "CA", pricePerGallon := 4.25, currency := "USD" }, -- Canada National Average
  -- United Kingdom
  { country := "GB", pricePerGallon := 6.80, currency := "USD" },
  -- European Union countries
  { country := "DE", pricePerGallon := 6.50, currency := "USD" },
  { country := "FR", pricePerGallon := 6.90, currency := "USD" },
  { country := "IT", pricePerGallon := 7.10, currency := "USD" },
  { country := "ES", pricePerGallon := 6.20, currency := "USD" },
  { country := "NL", pricePerGallon := 7.50, currency := "USD" },
  -- Other countries
  { country := "AU", pricePerGallon := 5.20, currency := "USD" },
  { country := "NZ", pricePerGallon := 5.50, currency := "USD" },
  { country := "MX", pricePerGallon := 3.80, currency := "USD" },
  { country := "JP", pricePerGallon := 5.40, currency := "USD" },
  { country := "KR", pricePerGallon := 5.60, currency := "USD" }
]

/-- Default/Global average if no match found. -/
def DEFAULT_GAS_PRICE : ℚ := 3.80

/-- Vehicle efficiency ranges (miles per gallon). -/
structure VehicleEfficiencyTable where
  efficient : ℚ
  average : ℚ
  inefficient : ℚ

/-- `VEHICLE_EFFICIENCY` constant. -/
def VEHICLE_EFFICIENCY : VehicleEfficiencyTable :=
  { efficient := 35, average := 25, inefficient := 18 }

/-- JS truthiness of an optional string (`undefined` and `""` are falsy). -/
def truthyStr : Option String → Bool
  | none => false
  | some s => decide (s ≠ "")

/-- The `find` for the exact `(country, region)` match inside
`getGasPriceForLocation` (`entry.country === country && entry.region ===
region`, both strict string equalities). -/
def findExactMatch (country region : String) : Option RegionalGasPrices :=
  gasPriceDatabase.find? fun entry =>
    decide (entry.country = country ∧ entry.region = some region)

/-- The `find` for the country-level match inside `getGasPriceForLocation`
(`entry.country === country && !entry.region`, the second conjunct being
JS truthiness negation). -/
def findCountryMatch (country : String) : Option RegionalGasPrices :=
  gasPriceDatabase.find? fun entry =>
    decide (entry.country = country) && !(truthyStr entry.region)

/-- `GasPriceService.getGasPriceForLocation`.  The early-return cascade of
the source is rendered as an option cascade: exact `(country, region)`
match, then country-only aggregate entry, then the global default. -/
def getGasPriceForLocation (locationContext : Option LocationContext) : ℚ :=
  match locationContext with
  | none => DEFAULT_GAS_PRICE
  | some ctx =>
    -- `if (country && region)` guard, then `find` for the exact match
    let exactResult : Option ℚ :=
      match ctx.country, ctx.region with
      | some c, some r =>
        if c ≠ "" ∧ r ≠ "" then (findExactMatch c r).map (·.pricePerGallon)
        else none
      | _, _ => none
    match exactResult with
    | some p => p
    | none =>
      -- `if (country)` guard, then `find` for the country-level match
      let countryResult : Option ℚ :=
        match ctx.country with
        | some c =>
          if c ≠ "" then (findCountryMatch c).map (·.pricePerGallon)
          else none
        | none => none
      match countryResult with
      | some p => p
      | none => DEFAULT_GAS_PRICE

/-- `GasPriceService.calculateCostPerKm`. -/
def calculateCostPerKm (gasPricePerGallon milesPerGallon : ℚ) : ℚ :=
  let kmPerGallon := milesPerGallon * 1.60934
  gasPricePerGallon / kmPerGallon

/-- Result record of `getCostRange`. -/
structure CostRange where
  min : ℚ
  max : ℚ
  average : ℚ
  gasPricePerGallon : ℚ

/-- `GasPriceService.getCostRange`. -/
def getCostRange (locationContext : Option LocationContext) : CostRange :=
  let gasPrice := getGasPriceForLocation locationContext
  let minCost := calculateCostPerKm gasPrice VEHICLE_EFFICIENCY.efficient
  let maxCost := calculateCostPerKm gasPrice VEHICLE_EFFICIENCY.inefficient
  let avgCost := calculateCostPerKm gasPrice VEHICLE_EFFICIENCY.average
  { min := roundTo2 minCost
    max := roundTo2 maxCost
    average := roundTo2 avgCost
    gasPricePerGallon := gasPrice }

/-! ## `src/backend/src/services/emissions.ts` — emissions calculator -/

/-- Static attributes of a transport mode.  `caloriesFactor` is `Option`
because the TS field is optional (absent for driving and transit). -/
structure TransportMode where
  id : String
  name : String
  mapboxProfile : String
  color : String
  icon : String
  emissionsFactor : ℚ
  costFactor : ℚ
  caloriesFactor : Option ℚ := none

/-- `transportModes.walking`. -/
def walkingMode : TransportMode :=
  { id := "walking", name := "Walking", mapboxProfile := "mapbox/walking"
    color := "#22c55e", icon := "🚶"
    emissionsFactor := 0, costFactor := 0, caloriesFactor := some 45 }

/-- `transportModes.cycling`. -/
def cyclingMode : TransportMode :=
  { id := "cycling", name := "Cycling", mapboxProfile := "mapbox/cycling"
    color := "#3b82f6", icon := "🚴"
    emissionsFactor := 0, costFactor := 0, caloriesFactor := some 35 }

/-- `transportModes.driving`. -/
def drivingMode : TransportMode :=
  { id := "driving", name := "Driving", mapboxProfile := "mapbox/driving"
    color := "#ef4444", icon := "🚗"
    emissionsFactor := 0.180, costFactor := 0.45 }

/-- `transportModes.transit`. -/
def transitMode : TransportMode :=
  { id := "transit", name := "Public Transit", mapboxProfile := "mapbox/driving"
    color := "#8b5cf6", icon := "🚌"
    emissionsFactor := 0.089, costFactor := 0.15 }

/-- The own data properties of the `transportModes` object literal: the
four mode records.  TS types are erased at runtime, so the key is
modelled as `String`; `transportModes mode = some tm` means `mode` is one
of the four defined modes.  The full bracket lookup
`transportModes[mode]`, which also sees the prototype chain, is
`transportModesRead` below. -/
def transportModes (mode : String) : Option TransportMode :=
  if mode = "walking" then some walkingMode
  else if mode = "cycling" then some cyclingMode
  else if mode = "driving" then some drivingMode
  else if mode = "transit" then some transitMode
  else none

/-- The property names a plain object literal inherits from
`Object.prototype`; reading any of them yields a truthy value (a built-in
function, or the prototype object itself for `__proto__`), not
`undefined`. -/
def OBJECT_PROTOTYPE_KEYS : List String :=
  ["constructor", "hasOwnProperty", "isPrototypeOf", "propertyIsEnumerable",
   "toLocaleString", "toString", "valueOf", "__defineGetter__", "__defineSetter__",
   "__lookupGetter__", "__lookupSetter__", "__proto__"]

/-- The possible runtime results of the property read
`transportModes[mode]`: one of the four own mode records, a truthy value
inherited from `Object.prototype` (every numeric property read on it
yields `undefined`), or `undefined`. -/
inductive ModeRead where
  | own (tm : TransportMode) : ModeRead
  | inherited : ModeRead
  | undefinedRead : ModeRead

/-- The JS bracket lookup `transportModes[mode]`, prototype chain
included: an own property wins, otherwise an `Object.prototype` member is
found (truthy!), otherwise the read is `undefined`. -/
def transportModesRead (mode : String) : ModeRead :=
  match transportModes mode with
  | some tm => .own tm
  | none => if mode ∈ OBJECT_PROTOTYPE_KEYS then .inherited else .undefinedRead

/-- The environmental rating ordinal `A`–`E`. -/
inductive Rating where
  | A | B | C | D | E
deriving DecidableEq

/-- The `details` sub-record of `RouteMetrics`.  `emissionsFactor` is a
JS number read off the looked-up value, `undefined` (`none`) when the
lookup hit an inherited `Object.prototype` member. -/
structure RouteDetails where
  emissionsFactor : Option ℚ
  distanceKm : ℚ
  breakdown : String

/-- The `RouteMetrics` result record, as constructed by the backend
`calculateMetrics` (the backend never produces the frontend-declared
optional `costRange` field).  `carbonEmissions` and `estimatedCost` are
JS numbers that are `NaN` (`none`) on the inherited-prototype-mode path,
where the arithmetic runs on an `undefined` factor. -/
structure RouteMetrics where
  carbonEmissions : Option ℚ
  estimatedCost : Option ℚ
  calories : Option ℤ
  healthImpact : String
  environmentalRating : Rating
  details : RouteDetails

/-- `MetricsRequest`: distance (meters), mode, optional duration (seconds)
and optional location context. -/
structure MetricsRequest where
  distance : ℚ
  mode : String
  duration : Option ℚ := none
  locationContext : Option LocationContext := none

/-- `calculateCarbonEmissions`: emissions for a distance and mode, rounded
to 3 decimal places. -/
def calculateCarbonEmissions (distanceKm : ℚ) (transportMode : TransportMode) : ℚ :=
  roundTo3 (distanceKm * transportMode.emissionsFactor)

/-- `calculateCost`: static per-km cost, rounded to 2 decimal places. -/
def calculateCost (distanceKm : ℚ) (transportMode : TransportMode) : ℚ :=
  roundTo2 (distanceKm * transportMode.costFactor)

/-- `getEnvironmentalRating`: rating from emissions per km.  The
`carbonEmissions` argument is a JS number that is `NaN` (`none`) on the
inherited-prototype-mode path; `NaN / distanceKm` is `NaN` and every
comparison in the cascade is false on `NaN`, so the cascade falls through
to `E` (after the `distanceKm === 0` check, which still yields `A`). -/
def getEnvironmentalRating (carbonEmissions : Option ℚ) (distanceKm : ℚ) : Rating :=
  if distanceKm = 0 then .A
  else
    match carbonEmissions with
    | none => .E                             -- NaN: all threshold tests are false
    | some c =>
      let emissionsPerKm := c / distanceKm
      if emissionsPerKm = 0 then .A          -- Walking
      else if emissionsPerKm ≤ 0.05 then .A  -- Very low emissions (cycling)
      else if emissionsPerKm ≤ 0.1 then .B   -- Low emissions
      else if emissionsPerKm ≤ 0.15 then .C  -- Medium emissions
      else if emissionsPerKm ≤ 0.25 then .D  -- High emissions
      else .E                                -- Very high emissions

/-- Render an optional integer as JS interpolates it (missing values print
as `undefined`). -/
def jsShowOptInt : Option ℤ → String
  | some n => toString n
  | none => "undefined"

/-- `getHealthImpact`: mode- and distance-banded message. -/
def getHealthImpact (mode : String) (distanceKm : ℚ) (calories : Option ℤ) : String :=
  if mode = "walking" then
    if distanceKm < 1 then
      "Great choice! You\x27ll burn ~" ++ jsShowOptInt calories ++ " calories and get fresh air."
    else if distanceKm < 3 then
      "Excellent exercise! You\x27ll burn ~" ++ jsShowOptInt calories ++
        " calories and improve cardiovascular health."
    else
      "Fantastic workout! You\x27ll burn ~" ++ jsShowOptInt calories ++
        " calories - that\x27s like a gym session."
  else if mode = "cycling" then
    if distanceKm < 2 then
      "Good exercise! You\x27ll burn ~" ++ jsShowOptInt calories ++
        " calories and reduce air pollution."
    else if distanceKm < 10 then
      "Great workout! You\x27ll burn ~" ++ jsShowOptInt calories ++
        " calories and strengthen your muscles."
    else
      "Amazing exercise! You\x27ll burn ~" ++ jsShowOptInt calories ++
        " calories - excellent for fitness."
  else if mode = "transit" then
    if distanceKm < 5 then
      "Eco-friendly choice! Consider walking part of the way for added health benefits."
    else
      "Smart sustainable choice! You\x27re reducing traffic and emissions."
  else if mode = "driving" then
    if distanceKm < 2 then
      "Consider walking or cycling for short distances - better for health and environment."
    else if distanceKm < 5 then
      "For regular trips, consider cycling or public transport alternatives."
    else
      "For long trips, consider carpooling or public transport when possible."
  else
    "Consider the environmental and health impacts of your transport choice."

/-- The `methodology`/`note` strings of `emissionsMethodology` used by
`getEmissionsBreakdown` (the unused `sources`/`factors` string lists are
not embedded). -/
def methodologyText (mode : String) : Option (String × String) :=
  if mode = "driving" then
    some ("Weighted average from EPA, DEFRA, and EEA data",
      "Actual emissions vary significantly by vehicle age, type, and driving conditions. Electric vehicles produce ~0.04-0.08 kg CO2/km depending on electricity grid mix.")
  else if mode = "transit" then
    some ("Per-passenger emissions for typical public transport mix",
      "Includes buses, trains, and metro systems. Varies by occupancy rates and regional energy mix.")
  else if mode = "cycling" then
    some ("Zero direct emissions, minimal lifecycle emissions",
      "Lifecycle emissions from manufacturing and maintenance are approximately 0.021 kg CO2/km but not included in direct transport emissions.")
  else if mode = "walking" then
    some ("Zero emissions", "Most sustainable transport option with additional health benefits.")
  else none

/-- `getEmissionsBreakdown`.  The function re-reads `transportModes[mode]`
(prototype chain included).  For an inherited-prototype mode the `switch`
falls to its default branch: `transportMode.emissionsFactor` is
`undefined` and `emissionsMethodology[mode]` is the inherited function
whose `.methodology` is `undefined`, so the fallback text is used.  For a
mode where the read is `undefined` the JS code would fail reading
`.emissionsFactor`; that branch is unreachable from `calculateMetrics`
(which raises first) and is modelled as the empty string. -/
def getEmissionsBreakdown (mode : String) (distanceKm : ℚ)
    (totalEmissions : Option ℚ) : String :=
  match transportModesRead mode with
  | .undefinedRead => ""
  | .inherited =>
    "Emissions calculated using factor of undefined kg CO2/km based on industry standards."
  | .own transportMode =>
    let note := (methodologyText mode).map (·.2) |>.getD ""
    let meth := (methodologyText mode).map (·.1)
    if mode = "walking" then
      "Zero direct emissions. Walking is the most sustainable transport option with additional health benefits. " ++ note
    else if mode = "cycling" then
      "Zero direct emissions. " ++ note ++ " Cycling produces " ++
        jsNumLit transportMode.emissionsFactor ++ " kg CO2/km in direct emissions."
    else if mode = "driving" then
      "Vehicle emissions: " ++ jsNumLit transportMode.emissionsFactor ++ " kg CO2/km (" ++
        (meth.getD "industry average") ++ "). " ++
        "Total: " ++ jsToFixedNum 3 totalEmissions ++ " kg CO2 for " ++
        jsToFixed 1 distanceKm ++ " km. " ++ note
    else if mode = "transit" then
      "Shared transport emissions: " ++ jsNumLit transportMode.emissionsFactor ++
        " kg CO2/km per passenger. " ++ note ++ " Much more efficient than individual car travel."
    else
      "Emissions calculated using factor of " ++ jsNumLit transportMode.emissionsFactor ++
        " kg CO2/km based on " ++ (meth.getD "industry standards") ++ "."

/-- `EmissionsCalculatorService.calculateMetrics`: the only inputs read
from the request are `distance` and `mode`.  The guard
`if (!transportMode) throw` fires only when the bracket lookup is
`undefined`, which raises `Unknown transport mode: …` (modelled by
`Except.error`).  When the lookup hits an inherited `Object.prototype`
member the truthy value passes the guard and the calculation proceeds on
its `undefined` properties: the products are `NaN` (`none`), the
ternary on the `undefined` `caloriesFactor` yields `undefined`, and a
structurally complete but degraded record is returned, not an error. -/
def calculateMetrics (request : MetricsRequest) : Except String RouteMetrics :=
  match transportModesRead request.mode with
  | .undefinedRead => .error ("Unknown transport mode: " ++ request.mode)
  | .inherited =>
    let distanceKm := request.distance / 1000
    .ok
      { carbonEmissions := none    -- distanceKm * undefined = NaN, rounds to NaN
        estimatedCost := none      -- likewise NaN
        calories := none           -- undefined caloriesFactor is falsy
        healthImpact := getHealthImpact request.mode distanceKm none
        environmentalRating := getEnvironmentalRating none distanceKm
        details :=
          { emissionsFactor := none
            distanceKm := distanceKm
            breakdown := getEmissionsBreakdown request.mode distanceKm none } }
  | .own transportMode =>
    let distanceKm := request.distance / 1000
    let carbonEmissions := calculateCarbonEmissions distanceKm transportMode
    let estimatedCost := calculateCost distanceKm transportMode
    -- `transportMode.caloriesFactor ? Math.round(...) : undefined` (truthiness)
    let calories : Option ℤ :=
      match transportMode.caloriesFactor with
      | some f => if f ≠ 0 then some (jsRound (distanceKm * f)) else none
      | none => none
    let environmentalRating := getEnvironmentalRating (some carbonEmissions) distanceKm
    let healthImpact := getHealthImpact request.mode distanceKm calories
    .ok
      { carbonEmissions := some carbonEmissions
        estimatedCost := some estimatedCost
        calories := calories
        healthImpact := healthImpact
        environmentalRating := environmentalRating
        details :=
          { emissionsFactor := some transportMode.emissionsFactor
            distanceKm := distanceKm
            breakdown := getEmissionsBreakdown request.mode distanceKm (some carbonEmissions) } }

/-- An element of the `compareTransportModes` result: the JS object spread
`\x7b mode, ...metrics \x7d` is modelled by pairing the mode id with the
metrics record. -/
structure TaggedMetrics where
  mode : String
  metrics : RouteMetrics

/-- The body of the `map` inside `compareTransportModes`. -/
def compareEntry (distance : ℚ) (mode : String) : Except String TaggedMetrics :=
  (calculateMetrics { distance := distance, mode := mode }).map
    fun m => { mode := mode, metrics := m }

/-- The `≤`-preorder on possibly-`NaN` JS numbers used to model the sort
comparator.  On two real numbers it is the numeric order induced by
`a - b`.  When `NaN` is involved the comparator returns `NaN`, making it
inconsistent, and ES then leaves the sort order implementation-defined;
the model fixes the transitive, total choice that orders `NaN` first.
Every claim about the sort concerns lists of defined modes, where no
`NaN` occurs and this is exactly the numeric comparator. -/
def jsNanLe (x y : Option ℚ) : Bool :=
  match x, y with
  | some a, some b => decide (a ≤ b)
  | none, _ => true
  | some _, none => false

/-- The comparator `(a, b) => a.carbonEmissions - b.carbonEmissions`
passed to `Array.prototype.sort` induces this total preorder; JS `sort`
is stable (ES2019), which `List.mergeSort` models. -/
def emissionsLe (a b : TaggedMetrics) : Bool :=
  jsNanLe a.metrics.carbonEmissions b.metrics.carbonEmissions

/-- The `modes.map(mode => (\x7b mode, ...calculateMetrics(...) \x7d))`
step of `compareTransportModes`: sequential, with a thrown error
propagating out of the whole map. -/
def mapMetrics (distance : ℚ) : List String → Except String (List TaggedMetrics)
  | [] => .ok []
  | mode :: rest => do
    let e ← compareEntry distance mode
    let es ← mapMetrics distance rest
    pure (e :: es)

/-- `compareTransportModes`: map each mode through `calculateMetrics`,
then stably sort ascending by `carbonEmissions`. -/
def compareTransportModes (distance : ℚ) (modes : List String) :
    Except String (List TaggedMetrics) :=
  (mapMetrics distance modes).map fun entries => entries.mergeSort emissionsLe

/-! ## `src/backend/src/services/cache.ts` — response cache

`NodeCache` is modelled by an association list from keys to
`(value, expiresAt)`; time is an abstract rational instant.  The
geocoding and directions cache services are two instantiations of the
same (textually duplicated) wrapper code, so the wrapper is embedded
once, parameterised by the `\x7b ttl, enabled \x7d` config consumed from
`config.cache.*`.  The hit/miss statistics counters are observability
only and are not embedded. -/

/-- Per-cache configuration surface `\x7b ttl, enabled \x7d`. -/
structure CacheConfig where
  ttl : ℚ
  enabled : Bool

/-- The underlying `NodeCache` store: key ↦ (value, absolute expiry). -/
structure NodeCacheState where
  entries : List (String × JsVal × ℚ)

/-- Empty store. -/
def NodeCacheState.empty : NodeCacheState := { entries := [] }

/-- `NodeCache#get`: a stored entry is returned while `now ≤ expiry`
(node-cache treats an entry as expired once its deadline is strictly in
the past); a missing or expired key yields `undefined`. -/
def ncGet (st : NodeCacheState) (now : ℚ) (key : String) : Option JsVal :=
  match st.entries.find? (fun e => decide (e.1 = key)) with
  | some (_, v, expiry) => if now ≤ expiry then some v else none
  | none => none

/-- `NodeCache#set`: overwrite the key with a fresh entry expiring `ttl`
seconds from now. -/
def ncSet (st : NodeCacheState) (now : ℚ) (key : String) (v : JsVal) (ttl : ℚ) :
    NodeCacheState :=
  { entries := (key, v, now + ttl) :: st.entries.filter (fun e => !(decide (e.1 = key))) }

/-- `ttl || config.ttl`: JS `||` falls through on the falsy `0` and on a
missing argument. -/
def ttlOrDefault (ttl : Option ℚ) (dflt : ℚ) : ℚ :=
  match ttl with
  | some t => if t ≠ 0 then t else dflt
  | none => dflt

/-- The cache service `get` wrapper: returns `null` when caching is
disabled, and returns the stored data only when it is truthy (`if (data)`
— a stored falsy value is reported exactly like a miss). -/
def cacheServiceGet (cfg : CacheConfig) (st : NodeCacheState) (now : ℚ)
    (key : String) : Option JsVal :=
  if cfg.enabled = false then none
  else
    match ncGet st now key with
    | some data => if truthy data then some data else none
    | none => none

/-- The cache service `set` wrapper: a no-op returning `false` when
caching is disabled, otherwise stores under `ttl || config.ttl` and
returns the `NodeCache#set` success flag (always `true` here). -/
def cacheServiceSet (cfg : CacheConfig) (st : NodeCacheState) (now : ℚ)
    (key : String) (data : JsVal) (ttl : Option ℚ) : NodeCacheState × Bool :=
  if cfg.enabled = false then (st, false)
  else (ncSet st now key data (ttlOrDefault ttl cfg.ttl), true)

/-- `generateGeocodingCacheKey`: `"geocoding:" + query.toLowerCase().trim()
+ ":" + (options ? JSON.stringify(options) : "")`. -/
def generateGeocodingCacheKey (query : String) (options : Option JsVal) : String :=
  let normalized := jsTrim (jsToLower query)
  let optionsStr :=
    match options with
    | some o => if truthy o then stringifyVal o else ""
    | none => ""
  "geocoding:" ++ normalized ++ ":" ++ optionsStr

/-- `generateDirectionsCacheKey`. -/
def generateDirectionsCacheKey (start finish : ℚ × ℚ) (profile : String) : String :=
  "directions:" ++ jsNumLit start.1 ++ "," ++ jsNumLit start.2 ++ ":" ++
    jsNumLit finish.1 ++ "," ++ jsNumLit finish.2 ++ ":" ++ profile

/-! ## Spec-side definitions (for refinement-style claims) -/

/-- The environmental-rating rule exactly as the spec words it (claim C5):
`distanceKm = 0` is rating `A`; otherwise thresholds on
`emissionsPerKm = carbonEmissions / distanceKm` are inclusive upper
bounds checked in ascending order, first match winning:
`≤0 → A; ≤0.05 → A; ≤0.10 → B; ≤0.15 → C; ≤0.25 → D; else E`. -/
def ratingSpec (carbonEmissions distanceKm : ℚ) : Rating :=
  if distanceKm = 0 then .A
  else
    let emissionsPerKm := carbonEmissions / distanceKm
    if emissionsPerKm ≤ 0 then .A
    else if emissionsPerKm ≤ 0.05 then .A
    else if emissionsPerKm ≤ 0.10 then .B
    else if emissionsPerKm ≤ 0.15 then .C
    else if emissionsPerKm ≤ 0.25 then .D
    else .E

/-- The geocoding cache key as the spec words it (claim C3), amended for
the source behaviour: `"geocoding:" + lowercase(trim(query)) + ":" +` the
JSON rendering of the options *in their provided field order* (the
source uses `JSON.stringify`, which is insertion-ordered, not a canonical
field-sorted rendering). -/
def geocodingKeySpec (query : String) (options : Option JsVal) : String :=
  "geocoding:" ++ jsToLower (jsTrim query) ++ ":" ++
    (match options with
     | some o => if truthy o then stringifyVal o else ""
     | none => "")

/-! ## Helper lemmas -/

/-- `jsRound` is monotone. -/
lemma jsRound_mono {a b : ℚ} (h : a ≤ b) : jsRound a ≤ jsRound b :=
  Int.floor_mono (by linarith)

/-- `roundTo2` is monotone. -/
lemma roundTo2_mono {a b : ℚ} (h : a ≤ b) : roundTo2 a ≤ roundTo2 b := by
  unfold roundTo2
  exact (div_le_div_iff_of_pos_right (by norm_num)).mpr
    (Int.cast_le.mpr (jsRound_mono (by linarith)))

/-- Every price in the static database is positive. -/
lemma gasPriceDatabase_pos : ∀ e ∈ gasPriceDatabase, 0 < e.pricePerGallon := by
  intro e he
  fin_cases he <;> norm_num

/-- The global default price is positive. -/
lemma DEFAULT_GAS_PRICE_pos : 0 < DEFAULT_GAS_PRICE := by
  norm_num [DEFAULT_GAS_PRICE]

/-- A successful exact match yields a database price. -/
lemma exact_match_pos (c r : String) (p : ℚ)
    (h : (findExactMatch c r).map (·.pricePerGallon) = some p) : 0 < p := by
  rw [Option.map_eq_some'] at h
  obtain ⟨e, he, hp⟩ := h
  exact hp ▸ gasPriceDatabase_pos e (List.mem_of_find?_eq_some he)

/-- A successful country-level match yields a database price. -/
lemma country_match_pos (c : String) (p : ℚ)
    (h : (findCountryMatch c).map (·.pricePerGallon) = some p) : 0 < p := by
  rw [Option.map_eq_some'] at h
  obtain ⟨e, he, hp⟩ := h
  exact hp ▸ gasPriceDatabase_pos e (List.mem_of_find?_eq_some he)

/-- Positivity through an option-with-fallback cascade. -/
lemma pos_of_cascade (o : Option ℚ) (fallback : ℚ)
    (ho : ∀ p, o = some p → 0 < p) (hf : 0 < fallback) :
    0 < (match o with | some p => p | none => fallback) := by
  cases o with
  | none => exact hf
  | some p => exact ho p rfl

/-- The gas price lookup always returns a positive price. -/
lemma gasPrice_pos (ctx : Option LocationContext) : 0 < getGasPriceForLocation ctx := by
  unfold getGasPriceForLocation
  rcases ctx with _ | ⟨oc, orr⟩
  · exact DEFAULT_GAS_PRICE_pos
  · dsimp only
    apply pos_of_cascade
    · intro p hp
      rcases oc with _ | c <;> rcases orr with _ | r <;> dsimp only at hp
      · exact Option.noConfusion hp
      · exact Option.noConfusion hp
      · exact Option.noConfusion hp
      · split_ifs at hp with h
        exact exact_match_pos c r p hp
    · apply pos_of_cascade
      · intro p hp
        rcases oc with _ | c <;> dsimp only at hp
        · exact Option.noConfusion hp
        · split_ifs at hp with h
          exact country_match_pos c p hp
      · exact DEFAULT_GAS_PRICE_pos

/-! ## Claims -/

/-- C7: `getGasPriceForLocation` never fails and always returns a
(positive) price for every possibly-absent location context; the lookup
cascade is witnessed on the three tiers: `(US, Texas)` hits the exact
Texas entry (3.10), `(US, Nowhereville)` falls back to the US aggregate
entry (3.50), and unknown `ZZ` falls back to the global default (3.80). -/
theorem getGasPriceForLocation_spec :
    (∀ ctx, 0 < getGasPriceForLocation ctx) ∧
    getGasPriceForLocation (some { country := some "US", region := some "Texas" }) = 3.10 ∧
    getGasPriceForLocation (some { country := some "US", region := some "Nowhereville" }) = 3.50 ∧
    getGasPriceForLocation (some { country := some "ZZ" }) = 3.80 := by
  refine ⟨gasPrice_pos, ?_, ?_, ?_⟩ <;>
    simp +decide [getGasPriceForLocation, findExactMatch, findCountryMatch, truthyStr,
      gasPriceDatabase, DEFAULT_GAS_PRICE]

/-- C8: for every possibly-absent location context, the cost range
satisfies `min ≤ average ≤ max` (min at 35 mpg, average at 25 mpg, max at
18 mpg, each `price / (mpg × 1.60934)` rounded to 2 decimals). -/
theorem getCostRange_ordered (ctx : Option LocationContext) :
    (getCostRange ctx).min ≤ (getCostRange ctx).average ∧
    (getCostRange ctx).average ≤ (getCostRange ctx).max := by
  have hp : 0 < getGasPriceForLocation ctx := gasPrice_pos ctx
  unfold getCostRange calculateCostPerKm VEHICLE_EFFICIENCY
  dsimp only
  constructor <;> apply roundTo2_mono
  · gcongr
    norm_num
  · gcongr
    norm_num

/-- A defined mode reads as its own record through the prototype-aware
bracket lookup. -/
lemma transportModesRead_own {mode : String} {tm : TransportMode}
    (h : transportModes mode = some tm) : transportModesRead mode = .own tm := by
  unfold transportModesRead
  rw [h]

/-- C2: for every distance ≥ 0 and every defined transport mode, the
returned `carbonEmissions` equals `(distance/1000) * emissionsFactor`
rounded to 3 decimal places. -/
theorem calculateMetrics_carbonEmissions (req : MetricsRequest) (tm : TransportMode)
    (_hd : 0 ≤ req.distance) (hm : transportModes req.mode = some tm) :
    (calculateMetrics req).map (·.carbonEmissions) =
      .ok (some (roundTo3 (req.distance / 1000 * tm.emissionsFactor))) := by
  unfold calculateMetrics
  rw [transportModesRead_own hm]
  rfl

/-- Witness for C2: distance 10000 m, driving (the spec example: 1.8 kg). -/
theorem calculateMetrics_carbonEmissions_witness :
    0 ≤ (10000 : ℚ) ∧
    (calculateMetrics { distance := 10000, mode := "driving" }).map (·.carbonEmissions) =
      .ok (some (roundTo3 (10000 / 1000 * drivingMode.emissionsFactor))) :=
  ⟨by norm_num,
   calculateMetrics_carbonEmissions { distance := 10000, mode := "driving" } drivingMode
     (by norm_num) rfl⟩

/-- The source rating function agrees everywhere with the spec-worded
threshold cascade (the source tests `emissionsPerKm === 0` where the spec
says `≤ 0`, but a negative value falls into the `≤ 0.05 → A` branch, so
the outputs coincide). -/
lemma getEnvironmentalRating_eq_ratingSpec (c d : ℚ) :
    getEnvironmentalRating (some c) d = ratingSpec c d := by
  unfold getEnvironmentalRating ratingSpec
  dsimp only
  split_ifs <;> first | rfl | linarith

/-- C5: for every request with distance ≥ 0 and defined mode, the
`environmentalRating` is the spec cascade applied to the already-rounded
`carbonEmissions` divided by `distanceKm` (`distanceKm = 0` rated `A`). -/
theorem calculateMetrics_environmentalRating (req : MetricsRequest) (tm : TransportMode)
    (_hd : 0 ≤ req.distance) (hm : transportModes req.mode = some tm) :
    (calculateMetrics req).map (·.environmentalRating) =
      .ok (ratingSpec (roundTo3 (req.distance / 1000 * tm.emissionsFactor))
        (req.distance / 1000)) := by
  unfold calculateMetrics
  rw [transportModesRead_own hm]
  simp only [Except.map, calculateCarbonEmissions, getEnvironmentalRating_eq_ratingSpec]

/-- Witness for C5: distance 10000 m, driving. -/
theorem calculateMetrics_environmentalRating_witness :
    0 ≤ (10000 : ℚ) ∧
    (calculateMetrics { distance := 10000, mode := "driving" }).map (·.environmentalRating) =
      .ok (ratingSpec (roundTo3 (10000 / 1000 * drivingMode.emissionsFactor)) (10000 / 1000)) :=
  ⟨by norm_num,
   calculateMetrics_environmentalRating { distance := 10000, mode := "driving" } drivingMode
     (by norm_num) rfl⟩

/-- C9 evaluation at the failing input: the claim requires the
`Unknown transport mode` error for every mode outside the four defined
modes and forbids degraded metrics, but `transportModes` is a plain
object literal.  For an inherited `Object.prototype` property name such
as `"toString"` the bracket lookup yields a truthy built-in function, the
guard `if (!transportMode) throw` is skipped, and a structurally complete
but degraded record (`NaN` emissions and cost, `undefined` factor, rating
`E`) is returned instead of an error.  The input reaches the calculator
in production through `POST /api/metrics/compare`, whose validation only
checks that `modes` is a non-empty array of anything. -/
theorem calculateMetrics_prototype_mode_no_error :
    ("toString" ∉ ["walking", "cycling", "driving", "transit"]) ∧
    (calculateMetrics { distance := 1000, mode := "toString" }).map
        (fun m => (m.carbonEmissions, m.estimatedCost, m.details.emissionsFactor,
          m.environmentalRating)) = .ok (none, none, none, .E) ∧
    calculateMetrics { distance := 1000, mode := "toString" } ≠
      .error "Unknown transport mode: toString" := by
  refine ⟨by decide, ?_, ?_⟩
  · simp +decide [calculateMetrics, transportModesRead, transportModes,
      OBJECT_PROTOTYPE_KEYS, Except.map, getEnvironmentalRating]
  · simp +decide [calculateMetrics, transportModesRead, transportModes,
      OBJECT_PROTOTYPE_KEYS]

/-- C10 (implicit): the result of `calculateMetrics` depends only on the
request distance and mode — the optional `duration` and `locationContext`
fields are never read, so any values for them yield identical metrics in
every field. -/
theorem calculateMetrics_ignores_optional_fields
    (distance : ℚ) (mode : String) (dur1 dur2 : Option ℚ)
    (ctx1 ctx2 : Option LocationContext) :
    calculateMetrics
        { distance := distance, mode := mode, duration := dur1, locationContext := ctx1 } =
      calculateMetrics
        { distance := distance, mode := mode, duration := dur2, locationContext := ctx2 } :=
  rfl

/-- C1 evaluation at the failing input: for a 10 km driving request with a
Texas location context, the code returns the static-factor cost
`roundTo2(10 × 0.45) = 4.5` — not the gas-price-table average
`getCostRange(Texas).average = 0.08` that the claim requires — and the
backend `RouteMetrics` record carries no `costRange` field at all (see
the `RouteMetrics` structure above, embedded from the backend
constructor). -/
theorem calculateMetrics_driving_static_cost :
    (calculateMetrics
        { distance := 10000
          mode := "driving"
          locationContext := some { country := some "US", region := some "Texas" } }).map
      (·.estimatedCost) = .ok (some 4.5) ∧
    (getCostRange (some { country := some "US", region := some "Texas" })).average = 0.08 ∧
    (4.5 : ℚ) ≠ 0.08 := by
  refine ⟨?_, ?_, by norm_num⟩
  · simp +decide [calculateMetrics, transportModesRead, transportModes, drivingMode,
      calculateCost, roundTo2, jsRound, Except.map]
    norm_num
  · simp +decide [getCostRange, calculateCostPerKm, roundTo2, getGasPriceForLocation,
      findExactMatch, gasPriceDatabase, VEHICLE_EFFICIENCY, jsRound]
    norm_num

/-- The `NaN`-aware preorder is transitive. -/
lemma jsNanLe_trans {x y z : Option ℚ} (hxy : jsNanLe x y) (hyz : jsNanLe y z) :
    jsNanLe x z := by
  unfold jsNanLe at hxy hyz ⊢
  rcases x with _ | a <;> rcases y with _ | b <;> rcases z with _ | c <;> simp_all
  linarith

/-- The `NaN`-aware preorder is total. -/
lemma jsNanLe_total (x y : Option ℚ) : jsNanLe x y || jsNanLe y x := by
  unfold jsNanLe
  rcases x with _ | a <;> rcases y with _ | b <;> simp_all
  exact le_total a b

/-- The comparator preorder is transitive. -/
lemma emissionsLe_trans : ∀ a b c : TaggedMetrics,
    emissionsLe a b → emissionsLe b c → emissionsLe a c :=
  fun _ _ _ hab hbc => jsNanLe_trans hab hbc

/-- The comparator preorder is total. -/
lemma emissionsLe_total : ∀ a b : TaggedMetrics, emissionsLe a b || emissionsLe b a :=
  fun a b => jsNanLe_total a.metrics.carbonEmissions b.metrics.carbonEmissions

/-- Mapping over a list of defined modes succeeds, and every produced
entry carries a real (non-`NaN`) `carbonEmissions` value. -/
lemma mapMetrics_ok (distance : ℚ) :
    ∀ modes : List String, (∀ m ∈ modes, (transportModes m).isSome = true) →
      ∃ base, mapMetrics distance modes = Except.ok base ∧
        ∀ e ∈ base, (e.metrics.carbonEmissions).isSome = true := by
  intro modes
  induction modes with
  | nil => exact fun _ => ⟨[], rfl, by simp⟩
  | cons a t ih =>
    intro h
    obtain ⟨tm, htm⟩ := Option.isSome_iff_exists.mp (h a (List.mem_cons_self a t))
    obtain ⟨base, hbase, hsome⟩ := ih (fun m hm => h m (List.mem_cons_of_mem a hm))
    have ha : ∃ e, compareEntry distance a = Except.ok e ∧
        (e.metrics.carbonEmissions).isSome = true := by
      unfold compareEntry calculateMetrics
      rw [transportModesRead_own htm]
      exact ⟨_, rfl, rfl⟩
    obtain ⟨e, he, hesome⟩ := ha
    refine ⟨e :: base, ?_, ?_⟩
    · simp only [mapMetrics, he, hbase]
      rfl
    · intro x hx
      rcases List.mem_cons.mp hx with rfl | hx2
      · exact hesome
      · exact hsome x hx2

/-- Filtering by one emissions value commutes with the stable sort: the
tied entries keep their input order. -/
lemma mergeSort_filter_key (base : List TaggedMetrics) (q : ℚ) :
    (base.mergeSort emissionsLe).filter
        (fun x => decide (x.metrics.carbonEmissions = some q)) =
      base.filter (fun x => decide (x.metrics.carbonEmissions = some q)) := by
  set p : TaggedMetrics → Bool :=
    fun x => decide (x.metrics.carbonEmissions = some q) with hp
  have hpair : (base.filter p).Pairwise (fun a b => emissionsLe a b) := by
    apply List.pairwise_of_forall_mem_list
    intro a ha b hb
    have ha2 := List.of_mem_filter ha
    have hb2 := List.of_mem_filter hb
    simp only [hp, decide_eq_true_eq] at ha2 hb2
    simp only [emissionsLe, ha2, hb2, jsNanLe, decide_eq_true_eq, le_refl]
  have hsub : List.Sublist (base.filter p) (base.mergeSort emissionsLe) :=
    List.sublist_mergeSort emissionsLe_trans emissionsLe_total hpair
      (List.filter_sublist base)
  have hsub2 : List.Sublist ((base.filter p).filter p)
      ((base.mergeSort emissionsLe).filter p) :=
    hsub.filter p
  rw [List.filter_filter] at hsub2
  simp only [Bool.and_self] at hsub2
  have hlen : ((base.mergeSort emissionsLe).filter p).length = (base.filter p).length :=
    ((List.mergeSort_perm base emissionsLe).filter p).length_eq
  exact (hsub2.eq_of_length hlen.symm).symm

/-- C6: for every distance ≥ 0 and every list of defined modes,
`compareTransportModes` succeeds with the stably sorted mapped list:
non-decreasing in `carbonEmissions`, and entries with equal emissions
keep the relative order of the input list (stated via filters by each
emissions value). -/
theorem compareTransportModes_sorted_stable (distance : ℚ) (modes : List String)
    (_hd : 0 ≤ distance) (hm : ∀ m ∈ modes, (transportModes m).isSome = true) :
    ∃ base,
      mapMetrics distance modes = Except.ok base ∧
      compareTransportModes distance modes = Except.ok (base.mergeSort emissionsLe) ∧
      (∀ e ∈ base, (e.metrics.carbonEmissions).isSome = true) ∧
      (base.mergeSort emissionsLe).Pairwise
        (fun a b => ∀ x y : ℚ, a.metrics.carbonEmissions = some x →
          b.metrics.carbonEmissions = some y → x ≤ y) ∧
      ∀ q : ℚ,
        (base.mergeSort emissionsLe).filter
            (fun x => decide (x.metrics.carbonEmissions = some q)) =
          base.filter (fun x => decide (x.metrics.carbonEmissions = some q)) := by
  obtain ⟨base, hbase, hsome⟩ := mapMetrics_ok distance modes hm
  refine ⟨base, hbase, ?_, hsome, ?_, fun q => mergeSort_filter_key base q⟩
  · unfold compareTransportModes
    rw [hbase]
    rfl
  · have hs := @List.sorted_mergeSort TaggedMetrics emissionsLe
      emissionsLe_trans emissionsLe_total base
    refine hs.imp ?_
    intro a b h x y hx hy
    simp only [emissionsLe, hx, hy, jsNanLe, decide_eq_true_eq] at h
    exact h

/-- Witness for C6: distance 1000 m over `["driving", "walking"]`. -/
theorem compareTransportModes_sorted_stable_witness :
    0 ≤ (1000 : ℚ) ∧
    (∀ m ∈ ["driving", "walking"], (transportModes m).isSome = true) ∧
    ∃ base,
      mapMetrics 1000 ["driving", "walking"] = Except.ok base ∧
      compareTransportModes 1000 ["driving", "walking"] =
        Except.ok (base.mergeSort emissionsLe) ∧
      (∀ e ∈ base, (e.metrics.carbonEmissions).isSome = true) ∧
      (base.mergeSort emissionsLe).Pairwise
        (fun a b => ∀ x y : ℚ, a.metrics.carbonEmissions = some x →
          b.metrics.carbonEmissions = some y → x ≤ y) ∧
      ∀ q : ℚ,
        (base.mergeSort emissionsLe).filter
            (fun x => decide (x.metrics.carbonEmissions = some q)) =
          base.filter (fun x => decide (x.metrics.carbonEmissions = some q)) :=
  ⟨by norm_num, by decide,
   compareTransportModes_sorted_stable 1000 ["driving", "walking"] (by norm_num) (by decide)⟩

/-- Lowered basic-latin codepoints (97–122) are not whitespace. -/
lemma ofNat_lower_not_whitespace :
    ∀ n < 123, 97 ≤ n → (Char.ofNat n).isWhitespace = false := by decide

/-- ASCII lowering preserves whitespace-ness of a character. -/
lemma isWhitespace_toLower (c : Char) :
    (Char.toLower c).isWhitespace = c.isWhitespace := by
  unfold Char.toLower
  dsimp only
  split_ifs with h
  · have h1 : (Char.ofNat (c.toNat + 32)).isWhitespace = false :=
      ofNat_lower_not_whitespace (c.toNat + 32) (by omega) (by omega)
    have h2 : c.isWhitespace = false := by
      cases hw : c.isWhitespace
      · rfl
      · exfalso
        simp only [Char.isWhitespace, Bool.or_eq_true, decide_eq_true_eq] at hw
        rcases hw with ((rfl | rfl) | rfl) | rfl <;> revert h <;> decide
    rw [h1, h2]
  · rfl

/-- Trimming commutes with character-wise lowering. -/
lemma trimChars_map_toLower (l : List Char) :
    trimChars (l.map Char.toLower) = (trimChars l).map Char.toLower := by
  unfold trimChars
  have hpf : (Char.isWhitespace ∘ Char.toLower) = Char.isWhitespace :=
    funext fun c => isWhitespace_toLower c
  rw [List.dropWhile_map, hpf, ← List.map_reverse, List.dropWhile_map, hpf,
    ← List.map_reverse]

/-- `trim` after `toLowerCase` (the source order) equals `toLowerCase`
after `trim` (the spec order). -/
lemma jsTrim_jsToLower_comm (s : String) :
    jsTrim (jsToLower s) = jsToLower (jsTrim s) :=
  congrArg String.mk (trimChars_map_toLower s.data)

/-- C3 (amended): the geocoding cache key equals
`"geocoding:" + lowercase(trim(query)) + ":" +` the `JSON.stringify`
rendering of the options in their provided field order, so the key is a
pure deterministic function of those inputs and is insensitive to query
case and surrounding whitespace — but not to the insertion order of the
options fields. -/
theorem generateGeocodingCacheKey_spec :
    (∀ query options,
      generateGeocodingCacheKey query options = geocodingKeySpec query options) ∧
    (∀ q1 q2 options, jsTrim (jsToLower q1) = jsTrim (jsToLower q2) →
      generateGeocodingCacheKey q1 options = generateGeocodingCacheKey q2 options) := by
  constructor
  · intro query options
    unfold generateGeocodingCacheKey geocodingKeySpec
    rw [jsTrim_jsToLower_comm]
  · intro q1 q2 options h
    unfold generateGeocodingCacheKey
    rw [h]

/-- Witness for C3: `"  Austin "` and `"austin"` normalise identically,
so they derive the same key. -/
theorem generateGeocodingCacheKey_spec_witness :
    jsTrim (jsToLower "  Austin ") = jsTrim (jsToLower "austin") ∧
    generateGeocodingCacheKey "  Austin " (some (.jobj [("limit", .jstr "5")])) =
      generateGeocodingCacheKey "austin" (some (.jobj [("limit", .jstr "5")])) :=
  ⟨by decide,
   generateGeocodingCacheKey_spec.2 "  Austin " "austin"
     (some (.jobj [("limit", .jstr "5")])) (by decide)⟩

/-- C3 counterexample: two options objects with the same fields supplied
in a different insertion order derive different cache keys
(`JSON.stringify` is not canonical), refuting the claimed
order-insensitivity. -/
theorem generateGeocodingCacheKey_order_sensitive :
    generateGeocodingCacheKey "Austin"
        (some (.jobj [("limit", .jstr "5"), ("types", .jstr "place")])) ≠
      generateGeocodingCacheKey "Austin"
        (some (.jobj [("types", .jstr "place"), ("limit", .jstr "5")])) := by decide

/-- C4 (amended): when the cache is enabled, a `get` immediately after a
`set` returns the stored value for every *truthy* value (the service
reports a stored falsy value as a miss — see the counterexample); when
disabled, `get` always reports absent and `set` is a no-op returning
`false`. -/
theorem cacheService_roundtrip_and_disabled (cfg : CacheConfig) (st : NodeCacheState)
    (now : ℚ) (key : String) (data : JsVal) :
    (cfg.enabled = true → truthy data = true → 0 ≤ cfg.ttl →
      cacheServiceGet cfg (cacheServiceSet cfg st now key data none).1 now key =
        some data) ∧
    (cfg.enabled = false →
      cacheServiceGet cfg st now key = none ∧
      cacheServiceSet cfg st now key data none = (st, false)) := by
  constructor
  · intro hen htr httl
    unfold cacheServiceSet cacheServiceGet ncSet ncGet ttlOrDefault
    rw [hen]
    simp only [Bool.true_eq_false, if_false, reduceCtorEq]
    rw [List.find?_cons_of_pos _ (by simp)]
    dsimp only
    rw [if_pos (by linarith)]
    simp [htr]
  · intro hdis
    exact ⟨by simp [cacheServiceGet, hdis], by simp [cacheServiceSet, hdis]⟩

/-- Witness for C4: a truthy (object) value round-trips when enabled; a
disabled cache always misses. -/
theorem cacheService_roundtrip_witness :
    cacheServiceGet { ttl := 3600, enabled := true }
        (cacheServiceSet { ttl := 3600, enabled := true } .empty 0 "k"
          (.jobj [("a", .jnum 1)]) none).1 0 "k" = some (.jobj [("a", .jnum 1)]) ∧
    cacheServiceGet { ttl := 3600, enabled := false } .empty 0 "k" = none :=
  ⟨(cacheService_roundtrip_and_disabled { ttl := 3600, enabled := true } .empty 0 "k"
      (.jobj [("a", .jnum 1)])).1 rfl rfl (by norm_num),
   ((cacheService_roundtrip_and_disabled { ttl := 3600, enabled := false } .empty 0 "k"
      .jnull).2 rfl).1⟩

/-- C4 counterexample: with the cache enabled, storing the falsy value
`0` and reading it back immediately reports absent (`null`), because the
service `get` tests the stored data for truthiness — refuting "for every
value v". -/
theorem cacheService_falsy_roundtrip_fails :
    cacheServiceGet { ttl := 3600, enabled := true }
        (cacheServiceSet { ttl := 3600, enabled := true } .empty 0 "k"
          (.jnum 0) none).1 0 "k" ≠ some (.jnum 0) := by
  simp +decide [cacheServiceGet, cacheServiceSet, ncGet, ncSet, ttlOrDefault, truthy,
    NodeCacheState.empty]

end TransportPlanner
